import Mathlib

/-!
Shallow embedding of the `ReviewerRecFHE` Solidity contract
(`src/unnamed/part_000`).

Modelling conventions:
* `euint32` ciphertext handles are opaque; we model them with the inductive
  `Euint32`, distinguishing externally supplied handles (`ext`) from the
  trivial encryption of a plaintext constant produced by `FHE.asEuint32`
  (`triv`).
* Solidity storage mappings are total functions `Nat → α` whose default is the
  zero value of the struct, matching EVM zero-initialised storage.
* Each public function becomes a Lean function
  `... → ContractState → Except SolError ContractState`.  An EVM `require`
  failure or `revert` makes the whole transaction abort with no state change;
  returning `.error e` (which carries no state) models exactly that
  atomicity, so "no state mutation, no event emitted on failure" is the
  meaning of the `.error` branch.
* `FHE.requestDecryption` returns a fresh request id chosen by the external
  oracle; we pass that id (`reqId`) as an explicit argument.
* `FHE.checkSignatures(requestId, cleartexts, proof)` is an external
  boolean-or-revert verifier; its outcome is passed as the argument
  `proofOk : Bool`, and `proofOk = false` reverts.
* `abi.decode(cleartexts, (string[]))` is modelled by passing the decoded
  payload `cleartexts : List String` directly.
* Solidity 0.8 checked arithmetic on the `uint256` counters reverts on
  overflow at `2^256`; the guard is kept explicitly.
-/

namespace ReviewerRecFHE

/-- An `euint32` ciphertext handle.  `ext h` is an externally supplied handle
(function argument or zero-initialised storage slot `ext 0`); `triv v` is the
trivial encryption of the 32-bit constant `v` produced by `FHE.asEuint32`. -/
inductive Euint32 where
  | ext (handle : Nat)
  | triv (v : Nat)
  deriving DecidableEq, Repr

/-- Trivial encryption of a plaintext constant, `FHE.asEuint32`. -/
def FHE.asEuint32 (v : Nat) : Euint32 := .triv (v % 2 ^ 32)

/-- Struct `EncryptedPaper`. -/
structure EncryptedPaper where
  id : Nat
  encryptedTitle : Euint32
  encryptedAbstract : Euint32
  encryptedKeywords : Euint32
  encryptedDiscipline : Euint32
  timestamp : Nat
  deriving DecidableEq, Repr

/-- Zero-initialised `EncryptedPaper` storage slot. -/
def EncryptedPaper.zero : EncryptedPaper :=
  ⟨0, .ext 0, .ext 0, .ext 0, .ext 0, 0⟩

/-- Struct `EncryptedReviewer`. -/
structure EncryptedReviewer where
  id : Nat
  encryptedExpertise : Euint32
  encryptedAffiliation : Euint32
  encryptedPublicationCount : Euint32
  encryptedReviewCount : Euint32
  deriving DecidableEq, Repr

/-- Zero-initialised `EncryptedReviewer` storage slot. -/
def EncryptedReviewer.zero : EncryptedReviewer :=
  ⟨0, .ext 0, .ext 0, .ext 0, .ext 0⟩

/-- Struct `MatchResult`. -/
structure MatchResult where
  paperId : Nat
  reviewerId : Nat
  matchScore : Euint32
  isRevealed : Bool
  deriving DecidableEq, Repr

/-- Zero-initialised `MatchResult` storage slot. -/
def MatchResult.zero : MatchResult := ⟨0, 0, .ext 0, false⟩

/-- Emitted events, in order of emission. -/
inductive Event where
  | PaperSubmitted (id timestamp : Nat)
  | ReviewerAdded (id : Nat)
  | MatchingRequested (paperId : Nat)
  | MatchRevealed (paperId reviewerId : Nat)
  deriving DecidableEq, Repr

/-- Revert reasons of the contract.  The first six correspond to the
`require`/`revert` strings of the source; `proofVerificationFailed` is the
revert raised inside `FHE.checkSignatures`; `arithmeticOverflow` is the
Solidity 0.8 checked-arithmetic panic. -/
inductive SolError where
  | invalidPaperId
  | invalidRequest
  | noMatchFound
  | alreadyRevealed
  | noReviewersAvailable
  | proofVerificationFailed
  | arithmeticOverflow
  deriving DecidableEq, Repr

/-- The contract's storage, plus the append-only event log. -/
structure ContractState where
  paperCount : Nat
  reviewerCount : Nat
  encryptedPapers : Nat → EncryptedPaper
  encryptedReviewers : Nat → EncryptedReviewer
  matchResults : Nat → MatchResult
  requestToPaperId : Nat → Nat
  requestToReviewerId : Nat → Nat
  events : List Event

/-- Mapping store: Solidity `m[k] = v`. -/
def mstore {α : Type} (m : Nat → α) (k : Nat) (v : α) : Nat → α :=
  fun q => if q = k then v else m q

/-- Modulus of `uint256`; incrementing a counter at `2^256 - 1` reverts. -/
def UINT256_MOD : Nat := 2 ^ 256

/-- Post-deployment state: all counters and mappings zero-initialised. -/
def initState : ContractState where
  paperCount := 0
  reviewerCount := 0
  encryptedPapers := fun _ => EncryptedPaper.zero
  encryptedReviewers := fun _ => EncryptedReviewer.zero
  matchResults := fun _ => MatchResult.zero
  requestToPaperId := fun _ => 0
  requestToReviewerId := fun _ => 0
  events := []

/-- Function `submitEncryptedPaper`: increments `paperCount`, stores the record under
the new id, emits `PaperSubmitted`. -/
def submitEncryptedPaper (encryptedTitle encryptedAbstract encryptedKeywords
    encryptedDiscipline : Euint32) (blockTimestamp : Nat)
    (s : ContractState) : Except SolError ContractState :=
  if s.paperCount + 1 < UINT256_MOD then
    let newId := s.paperCount + 1
    .ok { s with
      paperCount := newId
      encryptedPapers := mstore s.encryptedPapers newId
        { id := newId
          encryptedTitle := encryptedTitle
          encryptedAbstract := encryptedAbstract
          encryptedKeywords := encryptedKeywords
          encryptedDiscipline := encryptedDiscipline
          timestamp := blockTimestamp }
      events := s.events ++ [.PaperSubmitted newId blockTimestamp] }
  else .error .arithmeticOverflow

/-- Function `addEncryptedReviewer`: increments `reviewerCount`, stores the record
under the new id, emits `ReviewerAdded`. -/
def addEncryptedReviewer (encryptedExpertise encryptedAffiliation
    encryptedPublicationCount encryptedReviewCount : Euint32)
    (s : ContractState) : Except SolError ContractState :=
  if s.reviewerCount + 1 < UINT256_MOD then
    let newId := s.reviewerCount + 1
    .ok { s with
      reviewerCount := newId
      encryptedReviewers := mstore s.encryptedReviewers newId
        { id := newId
          encryptedExpertise := encryptedExpertise
          encryptedAffiliation := encryptedAffiliation
          encryptedPublicationCount := encryptedPublicationCount
          encryptedReviewCount := encryptedReviewCount }
      events := s.events ++ [.ReviewerAdded newId] }
  else .error .arithmeticOverflow

/-- Function `requestMatchingReviewers(paperId)`: `require(paperId <= paperCount,
"Invalid paper ID")`, then sends the paper's four ciphertext handles to the
decryption oracle, records `requestToPaperId[reqId] = paperId`, emits
`MatchingRequested(paperId)`.  `reqId` is the fresh request id returned by
`FHE.requestDecryption`. -/
def requestMatchingReviewers (paperId reqId : Nat)
    (s : ContractState) : Except SolError ContractState :=
  if paperId ≤ s.paperCount then
    .ok { s with
      requestToPaperId := mstore s.requestToPaperId reqId paperId
      events := s.events ++ [.MatchingRequested paperId] }
  else .error .invalidPaperId

/-- Function `findBestMatch(paperData)`: ignores `paperData`; returns `1` when
`reviewerCount > 0`, otherwise `revert("No reviewers available")`. -/
def findBestMatch (s : ContractState) (paperData : List String) :
    Except SolError Nat :=
  if s.reviewerCount > 0 then .ok 1 else .error .noReviewersAvailable

/-- Callback `processMatching(requestId, cleartexts, proof)`: `require(paperId != 0,
"Invalid request")` on `requestToPaperId[requestId]`, then
`FHE.checkSignatures` (modelled by `proofOk`), then `findBestMatch` on the
decoded cleartexts, then writes
`matchResults[paperId] = {paperId, bestMatchId, FHE.asEuint32(100), false}`.
The source never deletes `requestToPaperId[requestId]`. -/
def processMatching (requestId : Nat) (cleartexts : List String)
    (proofOk : Bool) (s : ContractState) : Except SolError ContractState :=
  let paperId := s.requestToPaperId requestId
  if paperId = 0 then .error .invalidRequest
  else if proofOk = false then .error .proofVerificationFailed
  else
    match findBestMatch s cleartexts with
    | .error e => .error e
    | .ok bestMatchId =>
      .ok { s with
        matchResults := mstore s.matchResults paperId
          { paperId := paperId
            reviewerId := bestMatchId
            matchScore := FHE.asEuint32 100
            isRevealed := false } }

/-- Function `revealMatchedReviewer(paperId)`: `require(result.paperId != 0, "No match
found")`, `require(!result.isRevealed, "Already revealed")`, then sends the
match-score handle to the oracle and records
`requestToReviewerId[reqId] = paperId`. -/
def revealMatchedReviewer (paperId reqId : Nat)
    (s : ContractState) : Except SolError ContractState :=
  let result := s.matchResults paperId
  if result.paperId = 0 then .error .noMatchFound
  else if result.isRevealed then .error .alreadyRevealed
  else
    .ok { s with
      requestToReviewerId := mstore s.requestToReviewerId reqId paperId }

/-- Callback `finalizeReveal(requestId, cleartexts, proof)`: `require(paperId != 0,
"Invalid request")` on `requestToReviewerId[requestId]`, then
`FHE.checkSignatures`, then sets `result.isRevealed = true` and emits
`MatchRevealed(paperId, result.reviewerId)`.  The source never deletes
`requestToReviewerId[requestId]`, and the `cleartexts` bytes are never
decoded or used. -/
def finalizeReveal (requestId : Nat) (proofOk : Bool)
    (s : ContractState) : Except SolError ContractState :=
  let paperId := s.requestToReviewerId requestId
  if paperId = 0 then .error .invalidRequest
  else if proofOk = false then .error .proofVerificationFailed
  else
    let result := s.matchResults paperId
    .ok { s with
      matchResults := mstore s.matchResults paperId
        { result with isRevealed := true }
      events := s.events ++ [.MatchRevealed paperId result.reviewerId] }

/-- One external transaction against the contract.  Oracle-chosen request
ids and the outcome of `FHE.checkSignatures` appear as explicit data. -/
inductive Op where
  | submitPaper (t a k d : Euint32) (ts : Nat)
  | addReviewer (e a p r : Euint32)
  | requestMatching (paperId reqId : Nat)
  | procMatching (reqId : Nat) (cleartexts : List String) (proofOk : Bool)
  | reveal (paperId reqId : Nat)
  | finReveal (reqId : Nat) (proofOk : Bool)

/-- Dispatch of one transaction. -/
def step (op : Op) (s : ContractState) : Except SolError ContractState :=
  match op with
  | .submitPaper t a k d ts => submitEncryptedPaper t a k d ts s
  | .addReviewer e a p r => addEncryptedReviewer e a p r s
  | .requestMatching paperId reqId => requestMatchingReviewers paperId reqId s
  | .procMatching reqId ct proofOk => processMatching reqId ct proofOk s
  | .reveal paperId reqId => revealMatchedReviewer paperId reqId s
  | .finReveal reqId proofOk => finalizeReveal reqId proofOk s

/-- EVM transaction semantics: a reverted transaction leaves storage
unchanged. -/
def applyTx (op : Op) (s : ContractState) : ContractState :=
  match step op s with
  | .ok s' => s'
  | .error _ => s

/-- Run a list of transactions in order. -/
def runOps (s : ContractState) : List Op → ContractState
  | [] => s
  | op :: rest => runOps (applyTx op s) rest

/-- Returns `true` iff the transaction succeeded (did not revert). -/
def exOk (r : Except SolError ContractState) : Bool :=
  match r with
  | .ok _ => true
  | .error _ => false

/-- Is the operation a `processMatching` callback? -/
def Op.isProcMatching : Op → Bool
  | .procMatching _ _ _ => true
  | _ => false


/-! ### Pointwise mapping lemmas -/

/-- Reading a mapping at the stored key. -/
theorem mstore_self {α : Type} (m : Nat → α) (k : Nat) (v : α) :
    mstore m k v k = v := by
  simp [mstore]

/-- Reading a mapping at a different key. -/
theorem mstore_other {α : Type} (m : Nat → α) (k q : Nat) (v : α)
    (h : q ≠ k) : mstore m k v q = m q := by
  simp [mstore, h]

/-! ### Concrete demonstration traces

A happy-path history: one paper (id 1, request id 5), one reviewer (id 1),
one matching round, one reveal round (request id 7), then a second matching
round (request id 11) after the reveal. -/

/-- Decoded cleartext payload used in the demonstration traces. -/
def demoCt : List String := ["title", "abstract", "keywords", "discipline"]

/-- State after submitting one paper. -/
def submittedState : ContractState :=
  applyTx (.submitPaper (.ext 11) (.ext 12) (.ext 13) (.ext 14) 1000) initState

/-- State after additionally registering one reviewer. -/
def staffedState : ContractState :=
  applyTx (.addReviewer (.ext 21) (.ext 22) (.ext 23) (.ext 24)) submittedState

/-- State after requesting matching for paper 1 (oracle request id 5). -/
def preMatched : ContractState :=
  applyTx (.requestMatching 1 5) staffedState

/-- State after the `processMatching` callback for request 5 succeeded. -/
def matchedState : ContractState :=
  applyTx (.procMatching 5 demoCt true) preMatched

/-- State after requesting the reveal for paper 1 (oracle request id 7). -/
def preRevealed : ContractState :=
  applyTx (.reveal 1 7) matchedState

/-- State after the `finalizeReveal` callback for request 7 succeeded. -/
def revealedState : ContractState :=
  applyTx (.finReveal 7 true) preRevealed

/-- State after re-requesting matching for the already-revealed paper 1
(request id 11) and delivering the callback. -/
def rerequestedState : ContractState :=
  runOps revealedState [.requestMatching 1 11, .procMatching 11 demoCt true]

/-- State with one paper and a pending matching request but no reviewer. -/
def noReviewerState : ContractState :=
  runOps initState
    [.submitPaper (.ext 11) (.ext 12) (.ext 13) (.ext 14) 1000,
     .requestMatching 1 5]

/-! ### C2 -/

/-- C2, counterexample: the claim says `requestMatching(0)` fails with
`InvalidPaperId`, but the guard is `paperId <= paperCount`, which `0`
always satisfies: on the freshly deployed contract the call succeeds. -/
theorem requestMatching_zero_succeeds :
    exOk (requestMatchingReviewers 0 5 initState) = true := by rfl

/-- C2, amended: `requestMatchingReviewers p` fails with `InvalidPaperId`
exactly when `p` exceeds the current paper count; it succeeds for every
`p ≤ paperCount`, including `p = 0`. -/
theorem requestMatching_guard (p reqId : Nat) (s : ContractState) :
    (p ≤ s.paperCount → ∃ s', requestMatchingReviewers p reqId s = .ok s') ∧
    (s.paperCount < p →
      requestMatchingReviewers p reqId s = .error .invalidPaperId) := by
  constructor
  · intro hle
    exact ⟨{ s with
        requestToPaperId := mstore s.requestToPaperId reqId p
        events := s.events ++ [.MatchingRequested p] },
      by simp [requestMatchingReviewers, hle]⟩
  · intro hgt
    simp [requestMatchingReviewers, Nat.not_le.mpr hgt]

/-- C2, witness: with one paper submitted, `requestMatching 1` succeeds and
`requestMatching 2` fails with `InvalidPaperId`. -/
theorem requestMatching_guard_witness :
    (∃ s', requestMatchingReviewers 1 9 submittedState = .ok s') ∧
    requestMatchingReviewers 2 9 submittedState = .error .invalidPaperId :=
  ⟨(requestMatching_guard 1 9 submittedState).1 (by decide),
   (requestMatching_guard 2 9 submittedState).2 (by decide)⟩

/-! ### C4 -/

/-- C4: in both oracle callbacks, a failed `FHE.checkSignatures` (modelled by
`proofOk = false`) makes the whole transaction revert: the result is an
`.error`, which carries no state, so no `MatchResult` is written, no
`isRevealed` flag is flipped and no event is emitted.  The error is either
`invalidRequest` (when the pending entry is absent, checked first) or
`proofVerificationFailed`. -/
theorem callbacks_abort_on_bad_proof (s : ContractState) (reqId : Nat)
    (ct : List String) :
    (processMatching reqId ct false s = .error .invalidRequest ∨
      processMatching reqId ct false s = .error .proofVerificationFailed) ∧
    (finalizeReveal reqId false s = .error .invalidRequest ∨
      finalizeReveal reqId false s = .error .proofVerificationFailed) := by
  constructor
  · by_cases h : s.requestToPaperId reqId = 0
    · exact Or.inl (by simp [processMatching, h])
    · exact Or.inr (by simp [processMatching, h])
  · by_cases h : s.requestToReviewerId reqId = 0
    · exact Or.inl (by simp [finalizeReveal, h])
    · exact Or.inr (by simp [finalizeReveal, h])

/-! ### C5 -/

/-- C5: if the reviewer registry is empty when `processMatching` reaches the
matching evaluation (the pending entry exists and the proof verifies), the
transaction reverts with `NoReviewersAvailable`; the `.error` result carries
no state, so `matchResults` is unchanged. -/
theorem processMatching_no_reviewers (s : ContractState) (reqId : Nat)
    (ct : List String) (hrc : s.reviewerCount = 0)
    (hreq : s.requestToPaperId reqId ≠ 0) :
    processMatching reqId ct true s = .error .noReviewersAvailable := by
  simp [processMatching, findBestMatch, hrc, hreq]

/-- C5, witness: one paper, a pending matching request (id 5), no reviewer. -/
theorem processMatching_no_reviewers_witness :
    processMatching 5 demoCt true noReviewerState =
      .error .noReviewersAvailable :=
  processMatching_no_reviewers noReviewerState 5 demoCt (by rfl) (by decide)

/-! ### C9 -/

/-- C9: `requestMatchingReviewers 0` never reverts, records a pending entry
mapping the fresh request id to paper id `0`, and every later
`processMatching` callback for that request id fails with `InvalidRequest`
(the guard `paperId != 0` can never pass), so the request is never
consumed. -/
theorem requestMatching_zero_unconsumable (s : ContractState) (reqId : Nat) :
    ∃ s', requestMatchingReviewers 0 reqId s = .ok s' ∧
      s'.requestToPaperId reqId = 0 ∧
      ∀ (ct : List String) (proofOk : Bool),
        processMatching reqId ct proofOk s' = .error .invalidRequest := by
  refine ⟨{ s with
      requestToPaperId := mstore s.requestToPaperId reqId 0
      events := s.events ++ [.MatchingRequested 0] }, ?_, ?_, ?_⟩
  · simp [requestMatchingReviewers]
  · simp [mstore]
  · intro ct proofOk
    simp [processMatching, mstore]

/-! ### C10 -/

/-- C10: every `MatchResult` written by a successful `processMatching`
callback has `matchScore = FHE.asEuint32(100)`, the trivial encryption of
the constant `100`, whatever the state, the request and the cleartexts. -/
theorem processMatching_score_constant (s : ContractState) (reqId : Nat)
    (ct : List String) (proofOk : Bool) (s' : ContractState)
    (h : processMatching reqId ct proofOk s = .ok s') :
    (s'.matchResults (s.requestToPaperId reqId)).matchScore =
      FHE.asEuint32 100 := by
  unfold processMatching findBestMatch at h
  by_cases h0 : s.requestToPaperId reqId = 0
  · simp [h0] at h
  · by_cases hp : proofOk = false
    · simp [h0, hp] at h
    · by_cases hrc : 0 < s.reviewerCount
      · simp [h0, hp, hrc] at h
        subst h
        simp [mstore, h0]
      · simp [h0, hp, hrc] at h

/-- C10, witness: the score stored for paper 1 in the demonstration trace. -/
theorem processMatching_score_constant_witness :
    (matchedState.matchResults 1).matchScore = FHE.asEuint32 100 :=
  processMatching_score_constant preMatched 5 demoCt true matchedState (by rfl)

/-! ### C6 -/

/-- C6: `revealMatchedReviewer` fails with `NoMatchFound` when no
`MatchResult` exists for the paper (default slot, `paperId = 0`), and with
`AlreadyRevealed` when the stored result has `isRevealed = true`; both
failures revert, so no pending reveal request is recorded. -/
theorem revealMatchedReviewer_guards (s : ContractState) (p reqId : Nat) :
    ((s.matchResults p).paperId = 0 →
      revealMatchedReviewer p reqId s = .error .noMatchFound) ∧
    ((s.matchResults p).paperId ≠ 0 → (s.matchResults p).isRevealed = true →
      revealMatchedReviewer p reqId s = .error .alreadyRevealed) := by
  constructor
  · intro h0
    simp [revealMatchedReviewer, h0]
  · intro h0 hrev
    simp [revealMatchedReviewer, h0, hrev]

/-- C6, witness: on the fresh contract `revealMatchedReviewer 1` fails with
`NoMatchFound`; after the full reveal trace it fails with
`AlreadyRevealed`. -/
theorem revealMatchedReviewer_guards_witness :
    revealMatchedReviewer 1 9 initState = .error .noMatchFound ∧
    revealMatchedReviewer 1 9 revealedState = .error .alreadyRevealed :=
  ⟨(revealMatchedReviewer_guards initState 1 9).1 (by rfl),
   (revealMatchedReviewer_guards revealedState 1 9).2 (by decide) (by rfl)⟩


/-! ### C1 -/

/-- C1, counterexample: request 5 was consumed once by a successful
`processMatching` (the `MatchResult` for paper 1 is written), yet a second
`processMatching` with the same request id succeeds instead of failing with
`InvalidRequest` — the source never deletes `requestToPaperId[requestId]`.
Likewise a replayed `finalizeReveal` for the consumed request 7 succeeds. -/
theorem replay_accepted_cex :
    (matchedState.matchResults 1).paperId = 1 ∧
    exOk (processMatching 5 demoCt true matchedState) = true ∧
    exOk (finalizeReveal 7 true revealedState) = true :=
  ⟨rfl, rfl, rfl⟩

/-- C1, amended: the pending entries are never deleted.  After a successful
`processMatching` the `requestToPaperId` entry for the consumed request is
unchanged and a second callback with the same request id is accepted again
(it does not fail with `InvalidRequest`); the same holds for
`finalizeReveal` and `requestToReviewerId`. -/
theorem pending_entry_not_deleted :
    (∀ (s s' : ContractState) (reqId : Nat) (ct ct' : List String)
        (proofOk : Bool), processMatching reqId ct proofOk s = .ok s' →
      s'.requestToPaperId reqId = s.requestToPaperId reqId ∧
      exOk (processMatching reqId ct' true s') = true) ∧
    (∀ (s s' : ContractState) (reqId : Nat) (proofOk : Bool),
        finalizeReveal reqId proofOk s = .ok s' →
      s'.requestToReviewerId reqId = s.requestToReviewerId reqId ∧
      exOk (finalizeReveal reqId true s') = true) := by
  constructor
  · intro s s' reqId ct ct' proofOk h
    unfold processMatching findBestMatch at h
    by_cases h0 : s.requestToPaperId reqId = 0
    · simp [h0] at h
    · by_cases hp : proofOk = false
      · simp [h0, hp] at h
      · by_cases hrc : 0 < s.reviewerCount
        · simp [h0, hp, hrc] at h
          subst h
          exact ⟨rfl, by simp [processMatching, findBestMatch, exOk, h0, hrc]⟩
        · simp [h0, hp, hrc] at h
  · intro s s' reqId proofOk h
    unfold finalizeReveal at h
    by_cases h0 : s.requestToReviewerId reqId = 0
    · simp [h0] at h
    · by_cases hp : proofOk = false
      · simp [h0, hp] at h
      · simp [h0, hp] at h
        subst h
        exact ⟨rfl, by simp [finalizeReveal, exOk, h0]⟩

/-- C1, witness: the amended statement instantiated on the demonstration
trace, for both callbacks. -/
theorem pending_entry_not_deleted_witness :
    (matchedState.requestToPaperId 5 = preMatched.requestToPaperId 5 ∧
      exOk (processMatching 5 demoCt true matchedState) = true) ∧
    (revealedState.requestToReviewerId 7 = preRevealed.requestToReviewerId 7 ∧
      exOk (finalizeReveal 7 true revealedState) = true) :=
  ⟨pending_entry_not_deleted.1 preMatched matchedState 5 demoCt demoCt true
      (by rfl),
   pending_entry_not_deleted.2 preRevealed revealedState 7 true (by rfl)⟩

/-! ### C3 -/

/-- C3, counterexample: paper 1's `isRevealed` flag is `true` after the
reveal trace, and re-requesting matching plus a new `processMatching`
callback overwrites the `MatchResult` with `isRevealed = false` — the flag
reverts from `true` to `false`. -/
theorem revealed_flag_reverts_cex :
    (revealedState.matchResults 1).isRevealed = true ∧
    (rerequestedState.matchResults 1).isRevealed = false :=
  ⟨rfl, rfl⟩

/-- C3, amended: every successful transaction other than a `processMatching`
callback preserves a `true` `isRevealed` flag; only a successful
`processMatching` (after re-requesting matching) can overwrite a
`MatchResult` and reset the flag to `false`. -/
theorem revealed_preserved_except_procMatching (op : Op)
    (s s' : ContractState) (p : Nat) (h : step op s = .ok s')
    (hrev : (s.matchResults p).isRevealed = true) :
    (s'.matchResults p).isRevealed = true ∨ Op.isProcMatching op = true := by
  cases op with
  | submitPaper t a k d ts =>
    left
    unfold step submitEncryptedPaper at h
    by_cases hov : s.paperCount + 1 < UINT256_MOD
    · simp [hov] at h
      subst h
      simpa using hrev
    · simp [hov] at h
  | addReviewer e a pc r =>
    left
    unfold step addEncryptedReviewer at h
    by_cases hov : s.reviewerCount + 1 < UINT256_MOD
    · simp [hov] at h
      subst h
      simpa using hrev
    · simp [hov] at h
  | requestMatching pid rid =>
    left
    unfold step requestMatchingReviewers at h
    by_cases hle : pid ≤ s.paperCount
    · simp [hle] at h
      subst h
      simpa using hrev
    · simp [hle] at h
  | procMatching rid ct pok =>
    right
    rfl
  | reveal pid rid =>
    left
    unfold step revealMatchedReviewer at h
    by_cases h0 : (s.matchResults pid).paperId = 0
    · simp [h0] at h
    · by_cases hr : (s.matchResults pid).isRevealed = true
      · simp [h0, hr] at h
      · simp [h0, hr] at h
        subst h
        simpa using hrev
  | finReveal rid pok =>
    left
    unfold step finalizeReveal at h
    by_cases h0 : s.requestToReviewerId rid = 0
    · simp [h0] at h
    · by_cases hp : pok = false
      · simp [h0, hp] at h
      · simp [h0, hp] at h
        subst h
        by_cases hpq : p = s.requestToReviewerId rid
        · simp [mstore, hpq]
        · simpa [mstore, hpq] using hrev

/-- C3, witness: a successful paper submission on the revealed state leaves
paper 1's flag `true`. -/
theorem revealed_preserved_witness :
    ((applyTx (.submitPaper (.ext 31) (.ext 32) (.ext 33) (.ext 34) 2000)
        revealedState).matchResults 1).isRevealed = true ∨
    Op.isProcMatching (.submitPaper (.ext 31) (.ext 32) (.ext 33)
        (.ext 34) 2000) = true :=
  revealed_preserved_except_procMatching
    (.submitPaper (.ext 31) (.ext 32) (.ext 33) (.ext 34) 2000)
    revealedState _ 1 (by rfl) (by rfl)

/-! ### C8 -/

/-- Alternative callback for request 5 with a different cleartext payload. -/
def matchedStateAlt : ContractState :=
  applyTx (.procMatching 5 ["completely", "different", "payload"] true)
    preMatched

/-- C8: the reviewer id stored by `processMatching` does not depend on the
decrypted cleartexts — two successful callbacks for the same request on the
same state, with arbitrary different payloads, store the same reviewer id,
and that id is always `1` (the placeholder `findBestMatch` ignores its
argument). -/
theorem match_independent_of_cleartext (s : ContractState) (reqId : Nat)
    (ct1 ct2 : List String) (s1 s2 : ContractState)
    (h1 : processMatching reqId ct1 true s = .ok s1)
    (h2 : processMatching reqId ct2 true s = .ok s2) :
    (s1.matchResults (s.requestToPaperId reqId)).reviewerId =
      (s2.matchResults (s.requestToPaperId reqId)).reviewerId ∧
    (s1.matchResults (s.requestToPaperId reqId)).reviewerId = 1 := by
  unfold processMatching findBestMatch at h1 h2
  by_cases h0 : s.requestToPaperId reqId = 0
  · simp [h0] at h1
  · by_cases hrc : 0 < s.reviewerCount
    · simp [h0, hrc] at h1 h2
      subst h1
      subst h2
      simp [mstore]
    · simp [h0, hrc] at h1

/-- C8, witness: delivering the request-5 callback with two different
payloads stores reviewer id `1` both times. -/
theorem match_independent_witness :
    (matchedState.matchResults 1).reviewerId =
      (matchedStateAlt.matchResults 1).reviewerId ∧
    (matchedState.matchResults 1).reviewerId = 1 :=
  match_independent_of_cleartext preMatched 5 demoCt
    ["completely", "different", "payload"] matchedState matchedStateAlt
    (by rfl) (by rfl)


/-! ### C7 -/

/-- Paper slots are canonical: slot `i` holds a record with id `i` exactly
for the assigned range `1 ≤ i ≤ paperCount`, and the zero id otherwise. -/
def PaperIdsCanonical (s : ContractState) : Prop :=
  ∀ i, (s.encryptedPapers i).id =
    if 1 ≤ i ∧ i ≤ s.paperCount then i else 0

/-- Reviewer slots are canonical over the independent reviewer counter. -/
def ReviewerIdsCanonical (s : ContractState) : Prop :=
  ∀ i, (s.encryptedReviewers i).id =
    if 1 ≤ i ∧ i ≤ s.reviewerCount then i else 0

/-- The freshly deployed contract has canonical (empty) paper slots. -/
theorem initState_paper_canonical : PaperIdsCanonical initState := by
  intro i
  show EncryptedPaper.zero.id = if 1 ≤ i ∧ i ≤ 0 then i else 0
  rw [if_neg (by omega)]
  rfl

/-- The freshly deployed contract has canonical (empty) reviewer slots. -/
theorem initState_reviewer_canonical : ReviewerIdsCanonical initState := by
  intro i
  show EncryptedReviewer.zero.id = if 1 ≤ i ∧ i ≤ 0 then i else 0
  rw [if_neg (by omega)]
  rfl

/-- Every transaction preserves canonical paper and reviewer slots. -/
theorem applyTx_ids_canonical (op : Op) (s : ContractState)
    (hp : PaperIdsCanonical s) (hr : ReviewerIdsCanonical s) :
    PaperIdsCanonical (applyTx op s) ∧
      ReviewerIdsCanonical (applyTx op s) := by
  cases op with
  | submitPaper t a k d ts =>
    by_cases hov : s.paperCount + 1 < UINT256_MOD
    · have happ : applyTx (.submitPaper t a k d ts) s = { s with
          paperCount := s.paperCount + 1
          encryptedPapers := mstore s.encryptedPapers (s.paperCount + 1)
            { id := s.paperCount + 1
              encryptedTitle := t
              encryptedAbstract := a
              encryptedKeywords := k
              encryptedDiscipline := d
              timestamp := ts }
          events := s.events ++ [.PaperSubmitted (s.paperCount + 1) ts] } := by
        simp [applyTx, step, submitEncryptedPaper, hov]
      rw [happ]
      refine ⟨?_, hr⟩
      intro i
      show (mstore s.encryptedPapers (s.paperCount + 1)
        { id := s.paperCount + 1
          encryptedTitle := t
          encryptedAbstract := a
          encryptedKeywords := k
          encryptedDiscipline := d
          timestamp := ts } i).id =
        if 1 ≤ i ∧ i ≤ s.paperCount + 1 then i else 0
      by_cases hi : i = s.paperCount + 1
      · subst hi
        rw [mstore_self, if_pos (by omega)]
      · rw [mstore_other _ _ _ _ hi, hp i]
        by_cases hA : 1 ≤ i ∧ i ≤ s.paperCount
        · rw [if_pos hA, if_pos (by omega)]
        · rw [if_neg hA, if_neg (by omega)]
    · have happ : applyTx (.submitPaper t a k d ts) s = s := by
        simp [applyTx, step, submitEncryptedPaper, hov]
      rw [happ]
      exact ⟨hp, hr⟩
  | addReviewer e a pc r =>
    by_cases hov : s.reviewerCount + 1 < UINT256_MOD
    · have happ : applyTx (.addReviewer e a pc r) s = { s with
          reviewerCount := s.reviewerCount + 1
          encryptedReviewers := mstore s.encryptedReviewers
            (s.reviewerCount + 1)
            { id := s.reviewerCount + 1
              encryptedExpertise := e
              encryptedAffiliation := a
              encryptedPublicationCount := pc
              encryptedReviewCount := r }
          events := s.events ++ [.ReviewerAdded (s.reviewerCount + 1)] } := by
        simp [applyTx, step, addEncryptedReviewer, hov]
      rw [happ]
      refine ⟨hp, ?_⟩
      intro i
      show (mstore s.encryptedReviewers (s.reviewerCount + 1)
        { id := s.reviewerCount + 1
          encryptedExpertise := e
          encryptedAffiliation := a
          encryptedPublicationCount := pc
          encryptedReviewCount := r } i).id =
        if 1 ≤ i ∧ i ≤ s.reviewerCount + 1 then i else 0
      by_cases hi : i = s.reviewerCount + 1
      · subst hi
        rw [mstore_self, if_pos (by omega)]
      · rw [mstore_other _ _ _ _ hi, hr i]
        by_cases hA : 1 ≤ i ∧ i ≤ s.reviewerCount
        · rw [if_pos hA, if_pos (by omega)]
        · rw [if_neg hA, if_neg (by omega)]
    · have happ : applyTx (.addReviewer e a pc r) s = s := by
        simp [applyTx, step, addEncryptedReviewer, hov]
      rw [happ]
      exact ⟨hp, hr⟩
  | requestMatching pid rid =>
    by_cases hle : pid ≤ s.paperCount
    · have happ : applyTx (.requestMatching pid rid) s = { s with
          requestToPaperId := mstore s.requestToPaperId rid pid
          events := s.events ++ [.MatchingRequested pid] } := by
        simp [applyTx, step, requestMatchingReviewers, hle]
      rw [happ]
      exact ⟨hp, hr⟩
    · have happ : applyTx (.requestMatching pid rid) s = s := by
        simp [applyTx, step, requestMatchingReviewers, hle]
      rw [happ]
      exact ⟨hp, hr⟩
  | procMatching rid ct pok =>
    rcases hres : step (.procMatching rid ct pok) s with e | s'
    case error =>
      have happ : applyTx (.procMatching rid ct pok) s = s := by
        simp [applyTx, hres]
      rw [happ]
      exact ⟨hp, hr⟩
    case ok =>
      have happ : applyTx (.procMatching rid ct pok) s = s' := by
        simp [applyTx, hres]
      unfold step processMatching findBestMatch at hres
      by_cases h0 : s.requestToPaperId rid = 0
      · simp [h0] at hres
      · by_cases hpok : pok = false
        · simp [h0, hpok] at hres
        · by_cases hrc : 0 < s.reviewerCount
          · simp [h0, hpok, hrc] at hres
            rw [happ, ← hres]
            exact ⟨hp, hr⟩
          · simp [h0, hpok, hrc] at hres
  | reveal pid rid =>
    rcases hres : step (.reveal pid rid) s with e | s'
    case error =>
      have happ : applyTx (.reveal pid rid) s = s := by
        simp [applyTx, hres]
      rw [happ]
      exact ⟨hp, hr⟩
    case ok =>
      have happ : applyTx (.reveal pid rid) s = s' := by
        simp [applyTx, hres]
      unfold step revealMatchedReviewer at hres
      by_cases h0 : (s.matchResults pid).paperId = 0
      · simp [h0] at hres
      · by_cases hrev : (s.matchResults pid).isRevealed = true
        · simp [h0, hrev] at hres
        · simp [h0, hrev] at hres
          rw [happ, ← hres]
          exact ⟨hp, hr⟩
  | finReveal rid pok =>
    rcases hres : step (.finReveal rid pok) s with e | s'
    case error =>
      have happ : applyTx (.finReveal rid pok) s = s := by
        simp [applyTx, hres]
      rw [happ]
      exact ⟨hp, hr⟩
    case ok =>
      have happ : applyTx (.finReveal rid pok) s = s' := by
        simp [applyTx, hres]
      unfold step finalizeReveal at hres
      by_cases h0 : s.requestToReviewerId rid = 0
      · simp [h0] at hres
      · by_cases hpok : pok = false
        · simp [h0, hpok] at hres
        · simp [h0, hpok] at hres
          rw [happ, ← hres]
          exact ⟨hp, hr⟩

/-- Canonical slots are an invariant of every transaction trace. -/
theorem runOps_ids_canonical (ops : List Op) (s : ContractState)
    (hp : PaperIdsCanonical s) (hr : ReviewerIdsCanonical s) :
    PaperIdsCanonical (runOps s ops) ∧
      ReviewerIdsCanonical (runOps s ops) := by
  induction ops generalizing s with
  | nil => exact ⟨hp, hr⟩
  | cons op rest ih =>
    have h := applyTx_ids_canonical op s hp hr
    exact ih (applyTx op s) h.1 h.2

/-- C7: identifiers are assigned from 1 upward by two independent counters.
In every state reachable from deployment, the paper slots holding a record
are exactly `1 .. paperCount` (and slot `i` holds id `i`), likewise for
reviewers; a successful `submitEncryptedPaper` increments `paperCount` by
exactly 1 and leaves `reviewerCount` unchanged, and a successful
`addEncryptedReviewer` does the reverse. -/
theorem id_assignment_canonical :
    (∀ ops : List Op, PaperIdsCanonical (runOps initState ops) ∧
      ReviewerIdsCanonical (runOps initState ops)) ∧
    (∀ (s s' : ContractState) (t a k d : Euint32) (ts : Nat),
      step (.submitPaper t a k d ts) s = .ok s' →
      s'.paperCount = s.paperCount + 1 ∧
        s'.reviewerCount = s.reviewerCount) ∧
    (∀ (s s' : ContractState) (e a pc r : Euint32),
      step (.addReviewer e a pc r) s = .ok s' →
      s'.reviewerCount = s.reviewerCount + 1 ∧
        s'.paperCount = s.paperCount) := by
  refine ⟨?_, ?_, ?_⟩
  · intro ops
    exact runOps_ids_canonical ops initState initState_paper_canonical
      initState_reviewer_canonical
  · intro s s' t a k d ts h
    unfold step submitEncryptedPaper at h
    by_cases hov : s.paperCount + 1 < UINT256_MOD
    · simp [hov] at h
      subst h
      exact ⟨rfl, rfl⟩
    · simp [hov] at h
  · intro s s' e a pc r h
    unfold step addEncryptedReviewer at h
    by_cases hov : s.reviewerCount + 1 < UINT256_MOD
    · simp [hov] at h
      subst h
      exact ⟨rfl, rfl⟩
    · simp [hov] at h

/-- C7, witness: the invariant on the demonstration trace, and the counter
increments for the first paper and the first reviewer. -/
theorem id_assignment_canonical_witness :
    (PaperIdsCanonical matchedState ∧ ReviewerIdsCanonical matchedState) ∧
    (submittedState.paperCount = initState.paperCount + 1 ∧
      submittedState.reviewerCount = initState.reviewerCount) ∧
    (staffedState.reviewerCount = submittedState.reviewerCount + 1 ∧
      staffedState.paperCount = submittedState.paperCount) :=
  ⟨id_assignment_canonical.1
      [.submitPaper (.ext 11) (.ext 12) (.ext 13) (.ext 14) 1000,
       .addReviewer (.ext 21) (.ext 22) (.ext 23) (.ext 24),
       .requestMatching 1 5, .procMatching 5 demoCt true],
   id_assignment_canonical.2.1 initState submittedState
      (.ext 11) (.ext 12) (.ext 13) (.ext 14) 1000 (by rfl),
   id_assignment_canonical.2.2 submittedState staffedState
      (.ext 21) (.ext 22) (.ext 23) (.ext 24) (by rfl)⟩

end ReviewerRecFHE
